import Mathlib

/-!
Verification of the parameter-variation, metrics-collection, filtering,
persistence and parameter-advisor logic of the PodAutoscalingKubernetes
repository (source files `benchmark.py`, `formatting.py`, `ml.py`),
shallowly embedded in Lean.  Machine integers stored into NumPy `int32`
fields are modelled as `Int` with an explicit two's-complement wrap;
float64 values are modelled as `ℚ`; external collaborators (the skcriteria
TOPSIS decision maker, the fitted scikit-learn regressors, the joblib
store, the file system) are explicit parameters of the embedded functions.
-/

namespace PodAutoscaling

/-- Two's-complement wrap into the `np.int32` value range, as performed when
a Python integer is stored into a NumPy array of dtype `np.int32`. -/
def toInt32 (x : Int) : Int := (x + 2147483648) % 4294967296 - 2147483648

/-- Truncation of a rational toward zero, the rounding a NumPy float64 value
undergoes when cast to an integer dtype. -/
def truncRat (q : ℚ) : Int := q.num.tdiv q.den

/-- Cast of a float64 prediction to `np.int32`: truncation toward zero
followed by the 32-bit wrap. -/
def ratToInt32 (q : ℚ) : Int := toInt32 (truncRat q)

/-- Integer `np.arange(start, stop, step)` for a positive step, the only
form used by `benchmark.parameter_variation`: the half-open interval
`[start, stop)` sampled every `step`. -/
def arange (start stop step : Int) : List Int :=
  if 0 < step ∧ start < stop then
    (List.range ((stop - start - 1).toNat / step.toNat + 1)).map fun (k : Nat) =>
      start + (k : Int) * step
  else []

/-- One (cpu, memory, pods) combination, an entry of the structured NumPy
arrays built by `parameter_variation` and `get_best_parameters` (all three
fields have dtype `np.int32`). -/
structure ParameterPoint where
  cpu : Int
  memory : Int
  pods : Int
deriving DecidableEq

/-- Result of `benchmark.parameter_variation`: the three axis sequences and
the 3-D variation matrix with `matrix[c][m][p] = (cpu[c], memory[m], pods[p])`. -/
structure VariationMatrix where
  cpuAxis : List Int
  memoryAxis : List Int
  podsAxis : List Int
  matrix : List (List (List ParameterPoint))
deriving DecidableEq

/-- Embedding of `benchmark.parameter_variation`:
`cpu = np.arange(cpu_request, cpu_limit, step)`,
`memory = np.arange(memory_request, memory_limit, step)`,
`pods = np.arange(1, pods_limit + 1, 1)`, each axis flipped when `invert`,
and the matrix filled with `(cpu[c], memory[m], pods[p])`.  The CSV dump of
the flat grid table is I/O and not modelled. -/
def parameter_variation (cpu_request cpu_limit memory_request memory_limit pods_limit step : Int)
    (invert : Bool) : VariationMatrix :=
  let cpu0 := arange cpu_request cpu_limit step
  let memory0 := arange memory_request memory_limit step
  let pods0 := arange 1 (pods_limit + 1) 1
  let cpu := if invert then cpu0.reverse else cpu0
  let memory := if invert then memory0.reverse else memory0
  let pods := if invert then pods0.reverse else pods0
  { cpuAxis := cpu
    memoryAxis := memory
    podsAxis := pods
    matrix := cpu.map fun c => memory.map fun m => pods.map fun p => ⟨c, m, p⟩ }

/-- Direction of one criterion of the multi-criteria decision
(skcriteria `MIN` / `MAX`). -/
inductive Criterion where
  | minimize
  | maximize
deriving DecidableEq

/-- The criteria list of `ml.choose_best`: minimize average response time,
maximize cpu usage, maximize memory usage. -/
def advisorCriteria : List Criterion :=
  [Criterion.minimize, Criterion.maximize, Criterion.maximize]

/-- Embedding of `ml.choose_best`, parameterized by the external TOPSIS
decision maker `dm` (skcriteria is an external library; `dm mtx criteria`
stands for `TOPSIS().decide(Data(mtx, criteria)).best_alternative_`). -/
def choose_best (dm : List (List Int) → List Criterion → Nat) (mtx : List (List Int)) : Nat :=
  dm mtx advisorCriteria

/-- The `predict_window` array built by `ml.get_best_parameters`: entry `i`
has offset `j = i % window + 1`; for `i < window` the current point stepped
down by `j` steps, otherwise stepped up by `j` steps, every coordinate
stored as `np.int32`. -/
def predict_window (cpu_limit memory_limit number_of_pods : Int) (window : Nat) (step : Int) :
    List ParameterPoint :=
  (List.range (2 * window)).map fun i =>
    let j : Int := ((i % window : Nat) : Int) + 1
    if i < window then
      { cpu := toInt32 (cpu_limit - j * step)
        memory := toInt32 (memory_limit - j * step)
        pods := toInt32 (number_of_pods - j) }
    else
      { cpu := toInt32 (cpu_limit + j * step)
        memory := toInt32 (memory_limit + j * step)
        pods := toInt32 (number_of_pods + j) }

/-- The `prediction_array` assembled by `ml.get_best_parameters`: row `i` is
`(predictions[0][i], predictions[1][i], predictions[2][i])` with each
float64 prediction cast to `np.int32`; `models k` is the prediction
function of the k-th model loaded by `get_models` (average response time,
cpu usage, memory usage, in that order). -/
def prediction_array (models : Fin 3 → ParameterPoint → ℚ) (pw : List ParameterPoint) :
    List (List Int) :=
  pw.map fun p => [ratToInt32 (models 0 p), ratToInt32 (models 1 p), ratToInt32 (models 2 p)]

/-- Embedding of `ml.get_best_parameters`: builds `predict_window`, the
prediction matrix, asks `choose_best` for the best-alternative index and
returns `predict_window[best_outcome_index]`. -/
def get_best_parameters (dm : List (List Int) → List Criterion → Nat)
    (models : Fin 3 → ParameterPoint → ℚ) (cpu_limit memory_limit number_of_pods : Int)
    (window : Nat) (step : Int) : Option ParameterPoint :=
  let pw := predict_window cpu_limit memory_limit number_of_pods window step
  let mtx := prediction_array models pw
  pw[choose_best dm mtx]?

/-- The two hand-written PromQL aggregate expressions of
`benchmark.get_prometheus_metric` (their literal query text is opaque
here). -/
inductive CustomQuery where
  | cpuUsage
  | memoryUsage
deriving DecidableEq

/-- Observable effects of one call to `benchmark.get_prometheus_metric`:
the error message logged (if any), the argument of the
`prom.custom_query_range` call (if issued; `none` inside means the Python
`query` variable was still `None`), and the metric name passed to
`prom.get_metric_range_data` (if issued). -/
structure PromFetch where
  loggedError : Option String
  customRange : Option (Option CustomQuery)
  metricRange : Option String
deriving DecidableEq

/-- Embedding of `benchmark.get_prometheus_metric`: with `custom=True` the
query is selected by name (`cpu` / `memory`), an unknown name logs an error
and leaves `query = None`, and `custom_query_range` is called with whatever
`query` holds; with `custom=False` the call goes to
`get_metric_range_data` with the metric name. -/
def get_prometheus_metric (metric_name : String) (custom : Bool) : PromFetch :=
  if custom then
    if metric_name = "cpu" then
      { loggedError := none
        customRange := some (some CustomQuery.cpuUsage)
        metricRange := none }
    else if metric_name = "memory" then
      { loggedError := none
        customRange := some (some CustomQuery.memoryUsage)
        metricRange := none }
    else
      { loggedError := some ("Accepts cpu or memory, but received " ++ metric_name)
        customRange := some none
        metricRange := none }
  else
    { loggedError := none
      customRange := none
      metricRange := some metric_name }

/-- A Python object stored in the joblib model store by `ml.save_model`:
either a fitted regressor (identified by an opaque tag) or a plain Python
boolean. -/
inductive MLObject where
  | fittedModel (tag : String)
  | pyBool (b : Bool)
deriving DecidableEq

/-- Whether a stored object is a regressor exposing a usable prediction
method. -/
def MLObject.canPredict : MLObject → Bool
  | MLObject.fittedModel _ => true
  | MLObject.pyBool _ => false

/-- Embedding of `ml.save_model`: `dump(model, data/models/{name}.joblib)`
over an explicit store state. -/
def save_model (store : String → Option MLObject) (model : MLObject) (name : String) :
    String → Option MLObject :=
  fun n => if n = name then some model else store n

/-- Embedding of `ml.load_model`: `load(data/models/{name}.joblib)`. -/
def load_model (store : String → Option MLObject) (name : String) : Option MLObject :=
  store name

/-- The object `ml.svr_model` passes to `save_model`: in the `search`
branch nothing is saved; in the `else` branch (reached when the `search`
argument is falsy) the code executes `save_model(search, name)` — the
local name `search` still holds the boolean argument, not the fitted
`svr`, so the saved object is that boolean. -/
def svr_model_saved (save search : Bool) : Option MLObject :=
  if search then none
  else if save then some (MLObject.pyBool search)
  else none

/-- Save path used by `formatting.save_data`:
`data/{mode}/{directory}_filtered.csv`. -/
def savePath (directory mode : String) : String :=
  "data/" ++ mode ++ "/" ++ directory ++ "_filtered.csv"

/-- Embedding of `formatting.save_data` over an explicit file-system state:
writes the table when the path does not exist, otherwise leaves the file
system unchanged and logs a warning (the returned Bool). -/
def save_data {α : Type} (fs : String → Option α) (data : α) (directory mode : String) :
    (String → Option α) × Bool :=
  if (fs (savePath directory mode)).isSome then (fs, true)
  else ((fun p => if p = savePath directory mode then some data else fs p), false)

/-- One row of the merged table built inside `formatting.filter_data`
(after the pivots and the joins with the custom metrics and the variation
matrix), carrying the columns subsequently used: the raw latency counters,
the custom usage metrics, the throttling counter and the variation
columns. -/
structure MergedRow where
  iteration : Nat
  pod : String
  cpuThrottled : ℚ
  cpuUsageCol : ℚ
  memoryUsageCol : ℚ
  cpuCol : ℚ
  memoryCol : ℚ
  podsCol : ℚ
  latencySum : ℚ
  latencyCount : ℚ
deriving DecidableEq

/-- A merged row extended with the derived `average response time` column. -/
structure ResRow where
  row : MergedRow
  averageResponseTime : ℚ
deriving DecidableEq

/-- The derivation step of `formatting.filter_data`:
`res_data["average response time"] = res_data["response_latency_ms_sum"] /
res_data["response_latency_ms_count"]`. -/
def addAverageResponseTime (r : MergedRow) : ResRow :=
  { row := r, averageResponseTime := r.latencySum / r.latencyCount }

/-- One row of the filtered output table of `formatting.filter_data`, after
the raw counter columns are dropped and the remaining columns renamed to
human-readable labels. -/
structure FilteredRecord where
  iteration : Nat
  pod : String
  cpuUsage : ℚ
  memoryUsage : ℚ
  cpuThrottledTotal : ℚ
  cpuLimit : ℚ
  memoryLimit : ℚ
  numberOfPods : ℚ
  averageResponseTime : ℚ
deriving DecidableEq

/-- The drop-and-rename step of `formatting.filter_data`: the raw metric
columns are dropped and `cpu`, `memory`, `CPU`, `Memory`, `Pods`,
`container_cpu_cfs_throttled_seconds_total` are renamed. -/
def dropAndRename (r : ResRow) : FilteredRecord :=
  { iteration := r.row.iteration
    pod := r.row.pod
    cpuUsage := r.row.cpuUsageCol
    memoryUsage := r.row.memoryUsageCol
    cpuThrottledTotal := r.row.cpuThrottled
    cpuLimit := r.row.cpuCol
    memoryLimit := r.row.memoryCol
    numberOfPods := r.row.podsCol
    averageResponseTime := r.averageResponseTime }

/-- Row-level embedding of the tail of `formatting.filter_data`: derive the
average response time on every merged row, erase the `prometheus` rows,
then drop and rename columns. -/
def filter_data (rows : List MergedRow) : List FilteredRecord :=
  (((rows.map addAverageResponseTime).filter fun r => r.row.pod != "prometheus").map
    dropAndRename)

/-! Supporting lemmas -/

theorem toInt32_eq_self {x : Int} (h1 : -2147483648 ≤ x) (h2 : x < 2147483648) :
    toInt32 x = x := by
  unfold toInt32
  omega

theorem mem_arange {r l s x : Int} (hs : 0 < s) (hx : x ∈ arange r l s) :
    (∃ k : Nat, x = r + k * s) ∧ x < l := by
  unfold arange at hx
  by_cases hrl : r < l
  · rw [if_pos ⟨hs, hrl⟩] at hx
    obtain ⟨k, hk, rfl⟩ := List.mem_map.mp hx
    rw [List.mem_range] at hk
    refine ⟨⟨k, rfl⟩, ?_⟩
    have hk' : k ≤ (l - r - 1).toNat / s.toNat := by omega
    have h2 : k * s.toNat ≤ (l - r - 1).toNat := (Nat.le_div_iff_mul_le (by omega)).mp hk'
    have h3 : (k : Int) * s ≤ l - r - 1 := by
      have h4 := Int.ofNat_le.mpr h2
      push_cast at h4
      rwa [Int.toNat_of_nonneg (by omega), Int.toNat_of_nonneg (by omega)] at h4
    linarith
  · rw [if_neg (by tauto)] at hx
    simp at hx

theorem self_mem_arange {r l s : Int} (hs : 0 < s) (hrl : r < l) : r ∈ arange r l s := by
  unfold arange
  rw [if_pos ⟨hs, hrl⟩]
  exact List.mem_map.mpr ⟨0, by simp [List.mem_range], by simp⟩

theorem arange_degenerate (r s : Int) : arange r r s = [] := by
  unfold arange
  rw [if_neg (by omega)]

theorem arange_single {r l s : Int} (hs : 0 < s) (hrl : r < l) (hls : l ≤ r + s) :
    arange r l s = [r] := by
  unfold arange
  rw [if_pos ⟨hs, hrl⟩]
  have h1 : (l - r - 1).toNat / s.toNat = 0 := Nat.div_eq_of_lt (by omega)
  rw [h1]
  simp [List.range_succ]

theorem predict_window_length (c m n : Int) (W : Nat) (s : Int) :
    (predict_window c m n W s).length = 2 * W := by
  simp [predict_window]

theorem predict_window_down (c m n : Int) (W : Nat) (s : Int) {j : Nat} (h1 : 1 ≤ j)
    (h2 : j ≤ W) :
    (predict_window c m n W s)[j - 1]? =
      some ⟨toInt32 (c - j * s), toInt32 (m - j * s), toInt32 (n - j)⟩ := by
  unfold predict_window
  rw [List.getElem?_map, List.getElem?_range (show j - 1 < 2 * W by omega)]
  have hmod : (j - 1) % W = j - 1 := Nat.mod_eq_of_lt (by omega)
  have hj : ((j - 1 : Nat) : Int) + 1 = (j : Int) := by omega
  simp only [Option.map_some', hmod, if_pos (show j - 1 < W by omega), hj]

theorem predict_window_up (c m n : Int) (W : Nat) (s : Int) {j : Nat} (h1 : 1 ≤ j)
    (h2 : j ≤ W) :
    (predict_window c m n W s)[W + j - 1]? =
      some ⟨toInt32 (c + j * s), toInt32 (m + j * s), toInt32 (n + j)⟩ := by
  unfold predict_window
  rw [List.getElem?_map, List.getElem?_range (show W + j - 1 < 2 * W by omega)]
  have heq : W + j - 1 = W + (j - 1) := by omega
  have hmod : (W + j - 1) % W = j - 1 := by
    rw [heq, Nat.add_mod_left, Nat.mod_eq_of_lt (by omega)]
  have hj : ((j - 1 : Nat) : Int) + 1 = (j : Int) := by omega
  simp only [Option.map_some', hmod, if_neg (show ¬(W + j - 1 < W) by omega), hj]

theorem truncRat_of_nonneg {q : ℚ} (hq : 0 ≤ q) : truncRat q = ⌊q⌋ := by
  rw [Rat.floor_def]
  exact Int.tdiv_eq_ediv (Rat.num_nonneg.mpr hq) (Int.natCast_nonneg _)

theorem truncRat_of_neg {q : ℚ} (hq : q < 0) : truncRat q = ⌈q⌉ := by
  have h1 : ⌈q⌉ = -⌊-q⌋ := by rw [Int.floor_neg]; ring
  have h2 : ⌊-q⌋ = (-q.num) / (q.den : Int) := by
    rw [Rat.floor_def, Rat.num_neg_eq_neg_num, Rat.den_neg_eq_den]
  have h3 : q.num.tdiv q.den = -((-q.num).tdiv q.den) := by
    have h4 := Int.neg_tdiv (-q.num) (q.den : Int)
    rw [neg_neg] at h4
    exact h4
  have h5 : (-q.num).tdiv q.den = (-q.num) / (q.den : Int) :=
    Int.tdiv_eq_ediv (by have := Rat.num_neg.mpr hq; omega) (Int.natCast_nonneg _)
  unfold truncRat
  rw [h3, h5, ← h2, ← h1]

/-! Claim theorems -/

/-- C1, counterexample: at the concrete degenerate input cpu request = cpu
limit = 100 (step 100), the cpu axis sequence of `parameter_variation` is
not single-element (it is empty) and the generated grid is empty, so the
claim fails on the code. -/
theorem c1_degenerate_range_counterexample :
    (parameter_variation 100 100 100 200 3 100 false).cpuAxis.length ≠ 1 ∧
      (parameter_variation 100 100 100 200 3 100 false).matrix = [] := by
  decide

/-- C1, amended: a degenerate range (request = limit) yields an empty axis
sequence and an empty grid; an axis sequence degrades to a single point
exactly when the range is non-empty but no wider than one step. -/
theorem c1_degenerate_range_amended (r mr ml pl s : Int) (inv : Bool) :
    (parameter_variation r r mr ml pl s inv).cpuAxis = [] ∧
      (parameter_variation r r mr ml pl s inv).matrix = [] ∧
      (∀ r' l' s' : Int, 0 < s' → r' < l' → l' ≤ r' + s' → arange r' l' s' = [r']) := by
  refine ⟨?_, ?_, fun r' l' s' h1 h2 h3 => arange_single h1 h2 h3⟩ <;>
    simp [parameter_variation, arange_degenerate]

/-- C1, witness for the amended claim at concrete inputs. -/
theorem c1_degenerate_range_amended_witness :
    (parameter_variation 100 100 100 200 3 100 false).cpuAxis = [] ∧
      (parameter_variation 100 100 100 200 3 100 false).matrix = [] ∧
      arange 100 150 100 = [100] := by
  have h := c1_degenerate_range_amended 100 100 200 3 100 false
  exact ⟨h.1, h.2.1, h.2.2 100 150 100 (by decide) (by decide) (by decide)⟩

/-- C4: for request=100, limit=500, step=100 the axis sequence is exactly
[100, 200, 300, 400] (the limit is excluded, half-open semantics), and in
general, for a positive step, every axis element has the form
request + k·step and lies strictly below the limit, with the request
itself included whenever the range is non-empty. -/
theorem c4_grid_half_open :
    arange 100 500 100 = [100, 200, 300, 400] ∧
      (parameter_variation 100 500 100 500 3 100 false).cpuAxis = [100, 200, 300, 400] ∧
      (∀ r l s x : Int, 0 < s → x ∈ arange r l s → (∃ k : Nat, x = r + k * s) ∧ x < l) ∧
      (∀ r l s : Int, 0 < s → r < l → r ∈ arange r l s) :=
  ⟨by decide, by decide, fun _ _ _ _ hs hx => mem_arange hs hx,
    fun _ _ _ hs hrl => self_mem_arange hs hrl⟩

/-- C4, witness: the general half-open characterization applied at the
concrete axis element 300 of arange 100 500 100. -/
theorem c4_grid_half_open_witness :
    ((∃ k : Nat, (300 : Int) = 100 + k * 100) ∧ (300 : Int) < 500) ∧
      (100 : Int) ∈ arange 100 500 100 :=
  ⟨c4_grid_half_open.2.2.1 100 500 100 300 (by decide) (by decide),
    c4_grid_half_open.2.2.2 100 500 100 (by decide) (by decide)⟩

/-- C5, counterexample: for the unknown metric name "disk" on the custom
path, the error is logged, but the range query is not skipped —
`custom_query_range` is still issued (with the query variable still
null), so the claim fails on the code. -/
theorem c5_unknown_metric_counterexample :
    (get_prometheus_metric "disk" true).loggedError.isSome = true ∧
      (get_prometheus_metric "disk" true).customRange ≠ none := by
  decide

/-- C5, amended: an unknown metric name on the custom path logs the error
and selects no known query; the call then still issues
`custom_query_range` with the null query (rather than skipping it), and
the function itself raises no exception. -/
theorem c5_unknown_metric_amended (name : String) (h1 : name ≠ "cpu") (h2 : name ≠ "memory") :
    get_prometheus_metric name true =
      { loggedError := some ("Accepts cpu or memory, but received " ++ name)
        customRange := some none
        metricRange := none } := by
  simp [get_prometheus_metric, h1, h2]

/-- C5, witness for the amended claim at the concrete name "disk". -/
theorem c5_unknown_metric_amended_witness :
    get_prometheus_metric "disk" true =
      { loggedError := some ("Accepts cpu or memory, but received " ++ "disk")
        customRange := some none
        metricRange := none } :=
  c5_unknown_metric_amended "disk" (by decide) (by decide)

/-- C6 (code bug): on the support-vector path with hyper-parameter search
disabled (search=False, save=True), `ml.svr_model` passes the local name
`search` — the boolean False — to `save_model` instead of the fitted
`svr`. The store itself round-trips any object faithfully, but the object
saved on this path is a boolean with no prediction method, so the
reloaded artifact cannot reproduce the fitted model's predictions. -/
theorem c6_svr_save_bug :
    svr_model_saved true false = some (MLObject.pyBool false) ∧
      (∀ (store : String → Option MLObject) (m : MLObject) (name : String),
        load_model (save_model store m name) name = some m) ∧
      Option.map MLObject.canPredict (svr_model_saved true false) = some false ∧
      svr_model_saved true false ≠ some (MLObject.fittedModel "svr") :=
  ⟨rfl, fun store m name => by simp [load_model, save_model], by decide, by decide⟩

/-- C7: when the filtered file already exists, `save_data` leaves the file
system unchanged, logs the warning and raises no exception; on a rerun
after a first write, the second call leaves the previously written
contents identical. -/
theorem c7_save_data_no_overwrite :
    (∀ (α : Type) (fs : String → Option α) (d old : α) (directory mode : String),
      fs (savePath directory mode) = some old →
        save_data fs d directory mode = (fs, true) ∧
          (save_data fs d directory mode).1 (savePath directory mode) = some old) ∧
      (∀ (α : Type) (fs : String → Option α) (d d' : α) (directory mode : String),
        fs (savePath directory mode) = none →
          (save_data fs d directory mode).1 (savePath directory mode) = some d ∧
            save_data ((save_data fs d directory mode).1) d' directory mode =
              ((save_data fs d directory mode).1, true)) := by
  constructor
  · intro α fs d old directory mode h
    have hs : (fs (savePath directory mode)).isSome = true := by rw [h]; rfl
    have h1 : save_data fs d directory mode = (fs, true) := by
      unfold save_data
      rw [if_pos hs]
    exact ⟨h1, by rw [h1]; exact h⟩
  · intro α fs d d' directory mode h
    have hn : ¬((fs (savePath directory mode)).isSome = true) := by rw [h]; simp
    have h1 : (save_data fs d directory mode).1 (savePath directory mode) = some d := by
      unfold save_data
      rw [if_neg hn]
      simp
    refine ⟨h1, ?_⟩
    set fs1 := (save_data fs d directory mode).1 with hfs1
    have hs : (fs1 (savePath directory mode)).isSome = true := by rw [h1]; rfl
    unfold save_data
    rw [if_pos hs]

/-- C7, witness: a store with no file, one write, then a skipped rerun. -/
theorem c7_save_data_no_overwrite_witness :
    (save_data (fun _ => (none : Option Nat)) 1 "20210303" "filtered").1
        (savePath "20210303" "filtered") = some 1 ∧
      save_data ((save_data (fun _ => (none : Option Nat)) 1 "20210303" "filtered").1) 2
          "20210303" "filtered" =
        ((save_data (fun _ => (none : Option Nat)) 1 "20210303" "filtered").1, true) :=
  c7_save_data_no_overwrite.2 Nat (fun _ => none) 1 2 "20210303" "filtered" rfl

/-- C2: `get_best_parameters` constructs exactly 2W candidate points: for
each offset j = 1..W, the point at index j−1 steps every parameter down by
j (cpu − j·s, memory − j·s, pods − j) and the point at index W+j−1 steps
every parameter up by j (given the stepped coordinates stay in the int32
range); in particular for window=2, step=50 and cpu=300 the candidate cpu
values are exactly 250, 200, 350, 400 — the set {200, 250, 350, 400}. -/
theorem c2_predict_window_candidates (c m n s : Int) (W j : Nat) (hj1 : 1 ≤ j) (hjW : j ≤ W)
    (hs : 0 ≤ s)
    (hc1 : -2147483648 ≤ c - W * s) (hc2 : c + W * s < 2147483648)
    (hm1 : -2147483648 ≤ m - W * s) (hm2 : m + W * s < 2147483648)
    (hn1 : -2147483648 ≤ n - W) (hn2 : n + W < 2147483648) :
    (predict_window c m n W s).length = 2 * W ∧
      (predict_window c m n W s)[j - 1]? = some ⟨c - j * s, m - j * s, n - j⟩ ∧
      (predict_window c m n W s)[W + j - 1]? = some ⟨c + j * s, m + j * s, n + j⟩ ∧
      ∀ m' n' : Int,
        (predict_window 300 m' n' 2 50).map ParameterPoint.cpu = [250, 200, 350, 400] := by
  have hjsW : (j : Int) * s ≤ (W : Int) * s :=
    mul_le_mul_of_nonneg_right (by exact_mod_cast hjW) hs
  have hjs0 : (0 : Int) ≤ (j : Int) * s := mul_nonneg (by positivity) hs
  refine ⟨predict_window_length c m n W s, ?_, ?_, fun m' n' => rfl⟩
  · rw [predict_window_down c m n W s hj1 hjW,
      toInt32_eq_self (by linarith) (by linarith),
      toInt32_eq_self (by linarith) (by linarith),
      toInt32_eq_self (by omega) (by omega)]
  · rw [predict_window_up c m n W s hj1 hjW,
      toInt32_eq_self (by linarith) (by linarith),
      toInt32_eq_self (by linarith) (by linarith),
      toInt32_eq_self (by omega) (by omega)]

/-- C2, witness: window 2, step 50, current point (300, 300, 3). -/
theorem c2_predict_window_candidates_witness :
    (predict_window 300 300 3 2 50).length = 2 * 2 ∧
      (predict_window 300 300 3 2 50)[2 - 1]? = some ⟨300 - 2 * 50, 300 - 2 * 50, 3 - 2⟩ ∧
      (predict_window 300 300 3 2 50)[2 + 2 - 1]? =
        some ⟨300 + 2 * 50, 300 + 2 * 50, 3 + 2⟩ ∧
      (predict_window 300 77 9 2 50).map ParameterPoint.cpu = [250, 200, 350, 400] := by
  have h := c2_predict_window_candidates 300 300 3 50 2 2 (by decide) (by decide) (by decide)
    (by decide) (by decide) (by decide) (by decide) (by decide) (by decide)
  exact ⟨h.1, h.2.1, h.2.2.1, h.2.2.2 77 9⟩

/-- C3: the advisor ranks the per-candidate prediction matrix (rows of
int32-cast predicted response time, cpu usage and memory usage) with the
closeness decision maker under directions minimize, maximize, maximize,
and returns the candidate parameter point at the returned best-alternative
index. -/
theorem c3_advisor_topsis_selection (dm : List (List Int) → List Criterion → Nat)
    (models : Fin 3 → ParameterPoint → ℚ) (c m n : Int) (W : Nat) (s : Int)
    (hdm : choose_best dm (prediction_array models (predict_window c m n W s)) < 2 * W) :
    choose_best dm (prediction_array models (predict_window c m n W s)) =
      dm (prediction_array models (predict_window c m n W s)) advisorCriteria ∧
      (∀ (i : Nat) (p : ParameterPoint), (predict_window c m n W s)[i]? = some p →
        (prediction_array models (predict_window c m n W s))[i]? =
          some [ratToInt32 (models 0 p), ratToInt32 (models 1 p), ratToInt32 (models 2 p)]) ∧
      ∃ p : ParameterPoint,
        (predict_window c m n W s)[choose_best dm
            (prediction_array models (predict_window c m n W s))]? = some p ∧
          get_best_parameters dm models c m n W s = some p := by
  refine ⟨rfl, ?_, ?_⟩
  · intro i p hp
    unfold prediction_array
    rw [List.getElem?_map, hp]
    rfl
  · have hlt : choose_best dm (prediction_array models (predict_window c m n W s)) <
        (predict_window c m n W s).length := by
      rw [predict_window_length]
      exact hdm
    refine ⟨(predict_window c m n W s).get ⟨_, hlt⟩, ?_, ?_⟩
    · exact List.getElem?_eq_getElem hlt
    · unfold get_best_parameters
      exact List.getElem?_eq_getElem hlt

/-- C3, witness: a concrete decision maker picking index 0 on the window
around (300, 300, 3). -/
theorem c3_advisor_topsis_selection_witness :
    ∃ p : ParameterPoint,
      (predict_window 300 300 3 2 50)[choose_best (fun _ _ => 0)
          (prediction_array (fun _ _ => mkRat 5 2) (predict_window 300 300 3 2 50))]? =
        some p ∧
        get_best_parameters (fun _ _ => 0) (fun _ _ => mkRat 5 2) 300 300 3 2 50 = some p :=
  (c3_advisor_topsis_selection (fun _ _ => 0) (fun _ _ => mkRat 5 2) 300 300 3 2 50
    (by decide)).2.2

/-- C9: the matrix whose best row index the decision maker picks inside
`get_best_parameters` holds the model predictions cast to int32, and the
cast truncates: it is the floor on nonnegative predictions, the ceiling on
negative ones (so the fractional part is discarded toward zero, the
magnitude never grows and shrinks by less than one), and within the int32
range the wrap is the identity. -/
theorem c9_int32_truncation (dm : List (List Int) → List Criterion → Nat)
    (models : Fin 3 → ParameterPoint → ℚ) (c m n : Int) (W : Nat) (s : Int) :
    get_best_parameters dm models c m n W s =
      (predict_window c m n W s)[dm ((predict_window c m n W s).map fun p =>
        [ratToInt32 (models 0 p), ratToInt32 (models 1 p), ratToInt32 (models 2 p)])
        advisorCriteria]? ∧
      (∀ q : ℚ, 0 ≤ q → truncRat q = ⌊q⌋) ∧
      (∀ q : ℚ, q < 0 → truncRat q = ⌈q⌉) ∧
      (∀ q : ℚ, |((truncRat q : Int) : ℚ)| ≤ |q| ∧ |q| - 1 < |((truncRat q : Int) : ℚ)|) ∧
      (∀ q : ℚ, -2147483648 ≤ truncRat q → truncRat q < 2147483648 →
        ratToInt32 q = truncRat q) := by
  refine ⟨rfl, fun q hq => truncRat_of_nonneg hq, fun q hq => truncRat_of_neg hq, ?_, ?_⟩
  · intro q
    rcases le_or_lt 0 q with hq | hq
    · rw [truncRat_of_nonneg hq]
      have h1 : ((⌊q⌋ : Int) : ℚ) ≤ q := Int.floor_le q
      have h2 : q < ⌊q⌋ + 1 := Int.lt_floor_add_one q
      have h3 : (0 : ℚ) ≤ ((⌊q⌋ : Int) : ℚ) := by
        have h4 : 0 ≤ ⌊q⌋ := Int.floor_nonneg.mpr hq
        exact_mod_cast h4
      rw [abs_of_nonneg hq, abs_of_nonneg h3]
      exact ⟨h1, by linarith⟩
    · rw [truncRat_of_neg hq]
      have h1 : q ≤ ((⌈q⌉ : Int) : ℚ) := Int.le_ceil q
      have h2 : ((⌈q⌉ : Int) : ℚ) < q + 1 := Int.ceil_lt_add_one q
      have h3 : ((⌈q⌉ : Int) : ℚ) ≤ 0 := by
        have h4 : ⌈q⌉ ≤ 0 := Int.ceil_le.mpr (by push_cast; linarith)
        exact_mod_cast h4
      rw [abs_of_neg hq, abs_of_nonpos h3]
      constructor <;> linarith
  · intro q h1 h2
    exact toInt32_eq_self h1 h2

/-- C9, witness: the truncation characterization at 5/2 and −5/2 and the
in-range cast at −11/4. -/
theorem c9_int32_truncation_witness :
    truncRat (mkRat 5 2) = ⌊(mkRat 5 2 : ℚ)⌋ ∧
      truncRat (mkRat (-5) 2) = ⌈(mkRat (-5) 2 : ℚ)⌉ ∧
      ratToInt32 (mkRat (-11) 4) = truncRat (mkRat (-11) 4) :=
  ⟨(c9_int32_truncation (fun _ _ => 0) (fun _ _ => 0) 0 0 0 1 1).2.1 (mkRat 5 2) (by decide),
    (c9_int32_truncation (fun _ _ => 0) (fun _ _ => 0) 0 0 0 1 1).2.2.1 (mkRat (-5) 2)
      (by decide),
    (c9_int32_truncation (fun _ _ => 0) (fun _ _ => 0) 0 0 0 1 1).2.2.2.2 (mkRat (-11) 4)
      (by decide) (by decide)⟩

/-- C10: the candidate replica counts of the advisor window are exactly
n−1, ..., n−W followed by n+1, ..., n+W with no lower bound applied (given
n±W lies in the int32 range); in particular whenever n ≤ W some candidate
point has a replica count of zero or below. -/
theorem c10_replica_window_unbounded (c m n : Int) (W : Nat) (s : Int) (hW : 1 ≤ W)
    (hn1 : -2147483648 ≤ n - W) (hn2 : n + W < 2147483648) :
    (predict_window c m n W s).map ParameterPoint.pods =
      (((List.range W).map fun (i : Nat) => n - ((i : Int) + 1)) ++
        ((List.range W).map fun (i : Nat) => n + ((i : Int) + 1))) ∧
      (n ≤ (W : Int) → ∃ p ∈ predict_window c m n W s, p.pods ≤ 0) := by
  have hmain : (predict_window c m n W s).map ParameterPoint.pods =
      (((List.range W).map fun (i : Nat) => n - ((i : Int) + 1)) ++
        ((List.range W).map fun (i : Nat) => n + ((i : Int) + 1))) := by
    unfold predict_window
    rw [List.map_map, show 2 * W = W + W from by omega, List.range_add, List.map_append,
      List.map_map]
    congr 1
    · apply List.map_congr_left
      intro i hi
      rw [List.mem_range] at hi
      simp only [Function.comp_apply, Nat.mod_eq_of_lt hi, if_pos hi]
      exact toInt32_eq_self (by omega) (by omega)
    · apply List.map_congr_left
      intro i hi
      rw [List.mem_range] at hi
      simp only [Function.comp_apply, Nat.add_mod_left, Nat.mod_eq_of_lt hi,
        if_neg (show ¬(W + i < W) by omega)]
      exact toInt32_eq_self (by omega) (by omega)
  refine ⟨hmain, fun hn => ?_⟩
  have hmem : (n - (W : Int)) ∈ (predict_window c m n W s).map ParameterPoint.pods := by
    rw [hmain]
    refine List.mem_append_left _ (List.mem_map.mpr ⟨W - 1, List.mem_range.mpr (by omega),
      by omega⟩)
  obtain ⟨p, hp, hpe⟩ := List.mem_map.mp hmem
  exact ⟨p, hp, by rw [hpe]; omega⟩

/-- C10, witness: current replica count 1 with window 2 produces the
replica candidates 0, −1, 2, 3, one of which is nonpositive. -/
theorem c10_replica_window_unbounded_witness :
    ((predict_window 0 0 1 2 50).map ParameterPoint.pods =
      (((List.range 2).map fun (i : Nat) => (1 : Int) - ((i : Int) + 1)) ++
        ((List.range 2).map fun (i : Nat) => (1 : Int) + ((i : Int) + 1)))) ∧
      ∃ p ∈ predict_window 0 0 1 2 50, p.pods ≤ 0 := by
  have h := c10_replica_window_unbounded 0 0 1 2 50 (by decide) (by decide) (by decide)
  exact ⟨h.1, h.2 (by decide)⟩

/-- C8: every row of the filtered output table comes from a merged source
row that is not the prometheus pod, and its derived average response time
column equals that row's latency sum divided by its latency count (an
exact division whenever the count is positive). -/
theorem c8_average_response_time (rows : List MergedRow) (out : FilteredRecord)
    (hout : out ∈ filter_data rows) :
    ∃ r ∈ rows, r.pod ≠ "prometheus" ∧ out = dropAndRename (addAverageResponseTime r) ∧
      out.averageResponseTime = r.latencySum / r.latencyCount ∧
      (0 < r.latencyCount → out.averageResponseTime * r.latencyCount = r.latencySum) := by
  unfold filter_data at hout
  obtain ⟨rr, hrr, rfl⟩ := List.mem_map.mp hout
  rw [List.mem_filter] at hrr
  obtain ⟨hrr1, hrr2⟩ := hrr
  obtain ⟨r, hr, rfl⟩ := List.mem_map.mp hrr1
  refine ⟨r, hr, ?_, rfl, rfl, ?_⟩
  · simpa [addAverageResponseTime] using hrr2
  · intro hc
    show r.latencySum / r.latencyCount * r.latencyCount = r.latencySum
    exact div_mul_cancel₀ _ (ne_of_gt hc)

/-- C8, witness: a single merged row with latency sum 10 and count 4. -/
theorem c8_average_response_time_witness :
    ∃ r ∈ [(⟨1, "webui", 0, 50, 60, 300, 400, 2, 10, 4⟩ : MergedRow)],
      r.pod ≠ "prometheus" ∧
        dropAndRename (addAverageResponseTime ⟨1, "webui", 0, 50, 60, 300, 400, 2, 10, 4⟩) =
          dropAndRename (addAverageResponseTime r) ∧
        (dropAndRename
            (addAverageResponseTime
              ⟨1, "webui", 0, 50, 60, 300, 400, 2, 10, 4⟩)).averageResponseTime =
          r.latencySum / r.latencyCount ∧
        (0 < r.latencyCount →
          (dropAndRename
              (addAverageResponseTime
                ⟨1, "webui", 0, 50, 60, 300, 400, 2, 10, 4⟩)).averageResponseTime *
            r.latencyCount = r.latencySum) :=
  c8_average_response_time [⟨1, "webui", 0, 50, 60, 300, 400, 2, 10, 4⟩]
    (dropAndRename (addAverageResponseTime ⟨1, "webui", 0, 50, 60, 300, 400, 2, 10, 4⟩))
    (List.mem_singleton.mpr rfl)

end PodAutoscaling
